import Mathlib

/-!
Verification development for the FurionRenderHelper add-on
(`src/__init__.py`).  The Python source is shallowly embedded: pure
string-processing functions (`generate_filename_from_pattern`, the
frame-list parsing portion of `RENDER_OT_specific_frames.execute`,
`get_selected_channels`) become Lean functions over `List Char` / `String`,
and the stateful modal render loop becomes an explicit step function on a
`Scene` record (the host-visible mutable state) and a `RunState` record
(the operator's cursor and captured originals).  External collaborators
(the render trigger, the filesystem, and the wall clock) are modelled as
parameters: the render trigger leaves a trace entry, and `datetime.now()`
is a `now : DateTime` argument.
-/

/-- Python whitespace class used by `str.strip` (space, tab, newline,
carriage return, vertical tab, form feed). -/
def isPySpace (c : Char) : Bool :=
  c = ' ' || c = '\t' || c = '\n' || c = '\r' || c = '\x0b' || c = '\x0c'

/-- `str.strip()`: drop leading and trailing Python whitespace. -/
def trimChars (l : List Char) : List Char :=
  ((l.dropWhile isPySpace).reverse.dropWhile isPySpace).reverse

/-- `str.split(sep)` for a single-character separator, Python semantics:
`"".split(',') = [""]`, consecutive separators yield empty pieces. -/
def splitOnChar (sep : Char) : List Char → List (List Char)
  | [] => [[]]
  | c :: rest =>
    let r := splitOnChar sep rest
    if c = sep then [] :: r
    else
      match r with
      | [] => [[c]]
      | g :: gs => (c :: g) :: gs

/-- Accumulator loop for the digit part of Python `int(...)`: digits with
single underscores allowed strictly between digits. -/
def digitsNat (acc : Nat) : List Char → Option Nat
  | [] => some acc
  | c :: rest =>
    if c.isDigit then digitsNat (acc * 10 + (c.toNat - 48)) rest
    else if c = '_' then
      match rest with
      | d :: _ => if d.isDigit then digitsNat acc rest else none
      | [] => none
    else none

/-- Python `int(s)` on a decimal string: strips whitespace, allows one
leading `+`/`-` sign, then digits (with underscores between digits).
Returns `none` where Python raises `ValueError`. -/
def pyInt (l : List Char) : Option Int :=
  match trimChars l with
  | [] => none
  | c :: rest =>
    if c = '-' then
      match rest with
      | [] => none
      | d :: _ =>
        if d.isDigit then (digitsNat 0 rest).map (fun n => -Int.ofNat n) else none
    else if c = '+' then
      match rest with
      | [] => none
      | d :: _ =>
        if d.isDigit then (digitsNat 0 rest).map Int.ofNat else none
    else if c.isDigit then (digitsNat 0 (c :: rest)).map Int.ofNat
    else none

/-- `range(start_frame, end_frame + 1)` as used by the frame parser:
the inclusive integer range `[a..b]`. -/
def rangeList (a b : Int) : List Int :=
  (List.range (b + 1 - a).toNat).map (fun k => a + Int.ofNat k)

/-- Error taxonomy of the frame-spec parsing portion of
`RENDER_OT_specific_frames.execute` (one constructor per distinct
`self.report({'ERROR'}, ...)` message). -/
inductive ParseError where
  /-- "Please enter frame numbers" (input empty after strip). -/
  | emptyInput : ParseError
  /-- "Invalid range: ... (start must be <= end)". -/
  | invalidRange : String → ParseError
  /-- "Invalid range format: ...". -/
  | invalidRangeFormat : String → ParseError
  /-- "Invalid frame number or range: ..." (the `ValueError` catch). -/
  | invalidFrameToken : String → ParseError
  /-- "No valid frame numbers found". -/
  | emptyFrameSet : ParseError
deriving DecidableEq, Repr

deriving instance DecidableEq for Except

/-- One comma-separated token of the frame list (already stripped and
non-empty), following `execute` lines 869-892: a token containing `-` is
split on `-`; exactly two pieces must both parse as integers (a
`ValueError` from `int()` is caught as the invalid-frame-token error),
with `start <= end` enforced; any other number of pieces is an
invalid-range-format error; a hyphen-free token must parse as one
integer. -/
def parseToken (t : List Char) : Except ParseError (List Int) :=
  if t.contains '-' then
    match splitOnChar '-' t with
    | [p0, p1] =>
      match pyInt p0, pyInt p1 with
      | some a, some b =>
        if a ≤ b then .ok (rangeList a b)
        else .error (.invalidRange (String.mk t))
      | _, _ => .error (.invalidFrameToken (String.mk t))
    | _ => .error (.invalidRangeFormat (String.mk t))
  else
    match pyInt t with
    | some n => .ok [n]
    | none => .error (.invalidFrameToken (String.mk t))

/-- The token loop of `execute`: strip each comma piece, skip empty
pieces, and concatenate the contributions of the remaining tokens;
the first failing token aborts the whole resolution. -/
def collectFrames : List (List Char) → Except ParseError (List Int)
  | [] => .ok []
  | tok :: rest =>
    if trimChars tok = [] then collectFrames rest
    else
      match parseToken (trimChars tok) with
      | .error e => .error e
      | .ok xs =>
        match collectFrames rest with
        | .error e => .error e
        | .ok ys => .ok (xs ++ ys)

/-- Insert an integer into a strictly ascending list, skipping
duplicates.  Folding this over a list computes Python's
`sorted(list(set(l)))`. -/
def insortND (x : Int) : List Int → List Int
  | [] => [x]
  | y :: ys =>
    if x < y then x :: y :: ys
    else if x = y then y :: ys
    else y :: insortND x ys

/-- Python `sorted(list(set(l)))`: the distinct elements of `l` in
strictly ascending order. -/
def sortedDedup (l : List Int) : List Int :=
  l.foldr insortND []

/-- The frame-list resolution portion of
`RENDER_OT_specific_frames.execute` (lines 858-899): strip the input,
reject empty input, split on commas, parse every token, reject an empty
result, and return `sorted(list(set(...)))` of all contributions. -/
def resolveFrames (s : String) : Except ParseError (List Int) :=
  if trimChars s.data = [] then .error .emptyInput
  else
    match collectFrames (splitOnChar ',' (trimChars s.data)) with
    | .error e => .error e
    | .ok all =>
      if all = [] then .error .emptyFrameSet
      else .ok (sortedDedup all)

/-! ## Filename pattern engine (`generate_filename_from_pattern`) -/

/-- Fuel-indexed loop of Python `str.replace` for a non-empty needle:
scan left to right, emit `new` and skip `old.length` characters at each
occurrence.  `fuel = s.length` always suffices since every step consumes
at least one character. -/
def pyReplaceF (old new : List Char) : Nat → List Char → List Char
  | 0, s => s
  | fuel + 1, s =>
    if old.isPrefixOf s then new ++ pyReplaceF old new fuel (s.drop old.length)
    else
      match s with
      | [] => []
      | c :: rest => c :: pyReplaceF old new fuel rest

/-- Python `s.replace(old, new)`.  For an empty `old`, Python inserts
`new` before every character and at the end. -/
def pyReplace (s old new : List Char) : List Char :=
  match old with
  | [] => new ++ s.foldr (fun c acc => c :: new ++ acc) []
  | _ :: _ => pyReplaceF old new s.length s

/-- Python `sub in s`: substring test. -/
def containsSub : List Char → List Char → Bool
  | s, sub =>
    if sub.isPrefixOf s then true
    else
      match s with
      | [] => false
      | _ :: rest => containsSub rest sub

/-- Python truthiness of an optional string argument: `x or default`
yields `default` for `None` and for the empty string. -/
def orDefaultL (o : Option (List Char)) (d : List Char) : List Char :=
  match o with
  | some s => if s.isEmpty then d else s
  | none => d

/-- Left-pad with a character to the given width. -/
def padLeft (c : Char) (w : Nat) (s : List Char) : List Char :=
  List.replicate (w - s.length) c ++ s

/-- Python `f"{n:04d}"`: zero-pad to total width 4, sign included. -/
def intFmt4 (n : Int) : List Char :=
  if n < 0 then '-' :: padLeft '0' 3 (Nat.toDigits 10 n.natAbs)
  else padLeft '0' 4 (Nat.toDigits 10 n.natAbs)

/-- A wall-clock timestamp as consumed by the pattern engine
(`datetime.datetime`, to second precision). -/
structure DateTime where
  year : Nat
  month : Nat
  day : Nat
  hour : Nat
  minute : Nat
  second : Nat
deriving DecidableEq, Repr

/-- One `strftime` directive of the host datetime library; directives
outside the set emitted by the format translation fail (Python raises
and the engine falls back). -/
def strfDirective (dt : DateTime) : Char → Option (List Char)
  | 'Y' => some (padLeft '0' 4 (Nat.toDigits 10 dt.year))
  | 'm' => some (padLeft '0' 2 (Nat.toDigits 10 dt.month))
  | 'd' => some (padLeft '0' 2 (Nat.toDigits 10 dt.day))
  | 'H' => some (padLeft '0' 2 (Nat.toDigits 10 dt.hour))
  | 'M' => some (padLeft '0' 2 (Nat.toDigits 10 dt.minute))
  | 'S' => some (padLeft '0' 2 (Nat.toDigits 10 dt.second))
  | '%' => some ['%']
  | _ => none

/-- `dt.strftime(fmt)` over a translated format string; `none` models a
raised formatting exception. -/
def strftimeRun (dt : DateTime) : List Char → Option (List Char)
  | [] => some []
  | '%' :: c :: rest =>
    match strfDirective dt c, strftimeRun dt rest with
    | some out, some tl => some (out ++ tl)
    | _, _ => none
  | ['%'] => none
  | c :: rest => (strftimeRun dt rest).map (fun tl => c :: tl)

/-- The literal substring replacements of `replace_datetime_token`:
`yyyy`, `MM`, `dd`, `HH`, `mm`, `ss` become the corresponding `strftime`
directives, in the source's order. -/
def translateFmt (fmt : List Char) : List Char :=
  let f1 := pyReplace fmt "yyyy".data "%Y".data
  let f2 := pyReplace f1 "MM".data "%m".data
  let f3 := pyReplace f2 "dd".data "%d".data
  let f4 := pyReplace f3 "HH".data "%H".data
  let f5 := pyReplace f4 "mm".data "%M".data
  pyReplace f5 "ss".data "%S".data

/-- Render one matched `(Start:fmt)`/`(End:fmt)` token: format the
selected timestamp with the translated format, falling back to
`"%Y%m%d_%H%M%S"` when formatting fails. -/
def renderStamp (dt : DateTime) (fmt : List Char) : List Char :=
  match strftimeRun dt (translateFmt fmt) with
  | some out => out
  | none => (strftimeRun dt "%Y%m%d_%H%M%S".data).getD []

/-- Try to match one alternative of `\((Start|End):([^)]+)\)` at the head
of the input: after the literal keyword (`"(Start:"` or `"(End:"`), take
the maximal run of non-`)` characters (the regex's greedy `[^)]+`), which
must be non-empty and followed by `)`; returns the format body and the
rest of the input after the closing parenthesis. -/
def dtTryKind (kw l : List Char) : Option (List Char × List Char) :=
  if kw.isPrefixOf l then
    match (l.drop kw.length).dropWhile (fun c => c ≠ ')') with
    | c :: tl =>
      if c = ')' then
        if ((l.drop kw.length).takeWhile (fun c => c ≠ ')')).isEmpty then none
        else some ((l.drop kw.length).takeWhile (fun c => c ≠ ')'), tl)
      else none
    | [] => none
  else none

/-- Match the regex `\((Start|End):([^)]+)\)` at the head of the input:
returns the kind (`true` for Start), the non-empty format body, and the
rest of the input after the closing parenthesis. -/
def dtMatch (l : List Char) : Option (Bool × List Char × List Char) :=
  match dtTryKind "(Start:".data l with
  | some (b, r) => some (true, b, r)
  | none =>
    match dtTryKind "(End:".data l with
    | some (b, r) => some (false, b, r)
    | none => none

/-- Fuel-indexed scan of `re.sub(r'\((Start|End):([^)]+)\)', ...)`:
each match selects `start_time` or `end_time` (falling back to the
current time when the respective argument is absent) and substitutes the
rendered timestamp. -/
def dtSubstF (startT endT : Option DateTime) (now : DateTime) :
    Nat → List Char → List Char
  | 0, l => l
  | _ + 1, [] => []
  | fuel + 1, c :: rest =>
    match dtMatch (c :: rest) with
    | some (isStart, fmt, tl) =>
      let dt := if isStart then startT.getD now else endT.getD now
      renderStamp dt fmt ++ dtSubstF startT endT now fuel tl
    | none => c :: dtSubstF startT endT now fuel rest

/-- The datetime-token substitution pass of the engine. -/
def dtSubst (startT endT : Option DateTime) (now : DateTime) (l : List Char) : List Char :=
  dtSubstF startT endT now l.length l

/-- The characters stripped by the filesystem-safety pass, in source
order: `<>:"/\|?*`. -/
def invalidChars : List Char := ['<', '>', ':', '\"', '/', '\\', '|', '?', '*']

/-- The filesystem-safety pass: replace every occurrence of each invalid
character with an underscore (a fold of `str.replace` calls, as in the
source). -/
def safetyList (l : List Char) : List Char :=
  invalidChars.foldl (fun acc c => pyReplace acc [c] ['_']) l

/-- The first four token substitutions of the engine:
`(Camera)`, `(Frame)`, `(FileName)`, `(ViewLayer)`, in source order with
the source's defaults. -/
def basicSubst (pattern : List Char) (blendName cameraName viewLayerName : Option (List Char))
    (frameNum : Int) : List Char :=
  pyReplace
    (pyReplace
      (pyReplace
        (pyReplace pattern "(Camera)".data (orDefaultL cameraName "NoCamera".data))
        "(Frame)".data (intFmt4 frameNum))
      "(FileName)".data (orDefaultL blendName "untitled".data))
    "(ViewLayer)".data (orDefaultL viewLayerName "ViewLayer".data)

/-- Core of `generate_filename_from_pattern` on character lists: basic
tokens, then `(Channel)` only when the literal token is present in the
partially substituted string, then datetime tokens, then the
filesystem-safety pass. -/
def genFilename (pattern : List Char) (blendName cameraName viewLayerName : Option (List Char))
    (frameNum : Int) (startT endT : Option DateTime) (channelName : Option (List Char))
    (now : DateTime) : List Char :=
  safetyList (dtSubst startT endT now
    (if containsSub (basicSubst pattern blendName cameraName viewLayerName frameNum)
        "(Channel)".data then
      pyReplace (basicSubst pattern blendName cameraName viewLayerName frameNum)
        "(Channel)".data (orDefaultL channelName "Combined".data)
    else basicSubst pattern blendName cameraName viewLayerName frameNum))

/-- `generate_filename_from_pattern(pattern, blend_name, camera_name,
frame_num, start_time, end_time, channel_name, view_layer_name)` with the
wall clock passed explicitly as `now`. -/
def generate_filename_from_pattern (pattern : String) (blend_name camera_name : Option String)
    (frame_num : Int) (start_time end_time : Option DateTime)
    (channel_name view_layer_name : Option String) (now : DateTime) : String :=
  String.mk (genFilename pattern.data (blend_name.map String.data)
    (camera_name.map String.data) (view_layer_name.map String.data)
    frame_num start_time end_time (channel_name.map String.data) now)

def dt0 : DateTime := ⟨2025, 10, 18, 17, 21, 18⟩

example : generate_filename_from_pattern "(FileName)_(Frame)" (some "Scene") none 7
    none none none none dt0 = "Scene_0007" := by decide
example : generate_filename_from_pattern "(FileName)_(Channel)" (some "Scene") none 1
    none none (some "Depth") none dt0 = "Scene_Depth" := by decide
example : generate_filename_from_pattern "(FileName)" (some "Scene") none 1
    none none (some "Depth") none dt0 = "Scene" := by decide
example : generate_filename_from_pattern "(FileName)_(Channel)" (some "Scene") none 1
    none none none none dt0 = "Scene_Combined" := by decide
example : generate_filename_from_pattern "(Start:yyyyMMdd)" none none 1
    (some dt0) none none none dt0 = "20251018" := by decide
example : generate_filename_from_pattern "(End:yyyyMMddHHmmss)" none none 1
    none (some dt0) none none dt0 = "20251018172118" := by decide
example : generate_filename_from_pattern "(Start:yyyyMMdd_HH:mm:ss)" none none 1
    (some dt0) none none none dt0 = "20251018_17_21_18" := by decide
example : generate_filename_from_pattern "(FileName)" (some "a/b") none 1
    none none none none dt0 = "a_b" := by decide
example : generate_filename_from_pattern "(Camera)" none none 1
    none none none none dt0 = "NoCamera" := by decide
example : generate_filename_from_pattern "(Camera)" none (some "") 1
    none none none none dt0 = "NoCamera" := by decide
example : generate_filename_from_pattern "(Start:q%q)" none none 1
    (some dt0) none none none dt0 = "20251018_172118" := by decide

/-! ## Host state model and the render sequencer -/

/-- One Blender view layer: its name and the render-pass flags read by
`get_selected_channels`.  `use_pass_environment` is optional because the
source guards it with `hasattr`; `none` models an absent attribute. -/
structure ViewLayer where
  name : String
  use_pass_z : Bool
  use_pass_mist : Bool
  use_pass_normal : Bool
  use_pass_diffuse_direct : Bool
  use_pass_glossy_direct : Bool
  use_pass_emit : Bool
  use_pass_diffuse_color : Bool
  use_pass_glossy_color : Bool
  use_pass_transmission_direct : Bool
  use_pass_transmission_color : Bool
  use_pass_ambient_occlusion : Bool
  use_pass_shadow : Bool
  use_pass_environment : Option Bool
deriving DecidableEq, Repr

/-- The host-visible mutable state touched by the operator: scene and
render settings, the compositor graph (as the list of node names), and
whether the modal timer is installed. -/
structure Scene where
  viewLayers : List ViewLayer
  camera : Option String
  frame_current : Int
  filepath : String
  file_format : String
  use_persistent_data : Bool
  use_file_extension : Bool
  use_nodes : Bool
  nodes : List String
  timerActive : Bool
deriving DecidableEq, Repr

/-- `get_selected_channels(scene)`: Combined always first, then each
enabled pass of the first view layer appended in the source's fixed
order; `[Combined]` when no view layer exists. -/
def get_selected_channels (scene : Scene) : List (String × String) :=
  match scene.viewLayers with
  | [] => [("Combined", "Combined")]
  | vl :: _ =>
    let c0 := [("Combined", "Combined")]
    let c1 := if vl.use_pass_z then c0 ++ [("Depth", "Depth")] else c0
    let c2 := if vl.use_pass_mist then c1 ++ [("Mist", "Mist")] else c1
    let c3 := if vl.use_pass_normal then c2 ++ [("Normal", "Normal")] else c2
    let c4 := if vl.use_pass_diffuse_direct then c3 ++ [("DiffuseDir", "DiffuseDir")] else c3
    let c5 := if vl.use_pass_glossy_direct then c4 ++ [("GlossyDir", "GlossyDir")] else c4
    let c6 := if vl.use_pass_emit then c5 ++ [("Emit", "Emit")] else c5
    let c7 := if vl.use_pass_diffuse_color then c6 ++ [("DiffuseCol", "DiffuseCol")] else c6
    let c8 := if vl.use_pass_glossy_color then c7 ++ [("GlossyCol", "GlossyCol")] else c7
    let c9 := if vl.use_pass_transmission_direct then c8 ++ [("TransDir", "TransDir")] else c8
    let c10 := if vl.use_pass_transmission_color then c9 ++ [("TransCol", "TransCol")] else c9
    let c11 := if vl.use_pass_ambient_occlusion then c10 ++ [("AO", "AO")] else c10
    let c12 := if vl.use_pass_shadow then c11 ++ [("Shadow", "Shadow")] else c11
    let c13 := if vl.use_pass_environment.getD false then c12 ++ [("Environment", "Environment")] else c12
    c13

/-- Modelled from the spec's channel ordering: the non-Combined passes in
their fixed order, each paired with the view-layer flag that enables it.
Used only to state the refinement theorem for `get_selected_channels`. -/
def passTable : List (String × (ViewLayer → Bool)) :=
  [("Depth", fun vl => vl.use_pass_z),
   ("Mist", fun vl => vl.use_pass_mist),
   ("Normal", fun vl => vl.use_pass_normal),
   ("DiffuseDir", fun vl => vl.use_pass_diffuse_direct),
   ("GlossyDir", fun vl => vl.use_pass_glossy_direct),
   ("Emit", fun vl => vl.use_pass_emit),
   ("DiffuseCol", fun vl => vl.use_pass_diffuse_color),
   ("GlossyCol", fun vl => vl.use_pass_glossy_color),
   ("TransDir", fun vl => vl.use_pass_transmission_direct),
   ("TransCol", fun vl => vl.use_pass_transmission_color),
   ("AO", fun vl => vl.use_pass_ambient_occlusion),
   ("Shadow", fun vl => vl.use_pass_shadow),
   ("Environment", fun vl => vl.use_pass_environment.getD false)]

/-- Spec-side description of channel resolution: Combined first, then the
pass table filtered by the first view layer's flags. -/
def channelsSpec (scene : Scene) : List (String × String) :=
  match scene.viewLayers with
  | [] => [("Combined", "Combined")]
  | vl :: _ =>
    ("Combined", "Combined") ::
      (passTable.filter (fun p => p.2 vl)).map (fun p => (p.1, p.1))

/-- The operator's per-batch state: resolved frames and channels, the two
cursors, and the captured originals to restore at the end. -/
structure RunState where
  frames : List Int
  channels : List (String × String)
  frameIdx : Nat
  chanIdx : Nat
  origFrame : Int
  origFilepath : String
  origFormat : String
  formatSwitched : Bool
  origPersistent : Bool
deriving DecidableEq, Repr

/-- Formats unusable for still rendering (`disallowed_formats`). -/
def disallowedFormats : List String := ["FFMPEG", "AVI_JPEG", "AVI_RAW", "FRAMESERVER"]

/-- `RENDER_OT_specific_frames.execute`: resolve the frame list (any
parse error aborts before any state is touched), resolve the channels,
capture the originals, force persistent data on, substitute PNG for a
disallowed format (recording the switch), and install the modal timer. -/
def executeOp (frame_list : String) (scene : Scene) :
    Except ParseError RunState × Scene :=
  match resolveFrames frame_list with
  | .error e => (.error e, scene)
  | .ok frames =>
    let channels := get_selected_channels scene
    let origFrame := scene.frame_current
    let origFilepath := scene.filepath
    let origFormat := scene.file_format
    let origPersistent := scene.use_persistent_data
    let s1 := { scene with use_persistent_data := true }
    let switched := disallowedFormats.contains origFormat
    let s2 := if switched then { s1 with file_format := "PNG" } else s1
    let s3 := { s2 with timerActive := true }
    (.ok { frames := frames, channels := channels, frameIdx := 0, chanIdx := 0,
           origFrame := origFrame, origFilepath := origFilepath,
           origFormat := origFormat, formatSwitched := switched,
           origPersistent := origPersistent }, s3)

/-- `finish_rendering`: restore frame, filepath, the image format (only
when it was switched and the captured original is non-empty), the
persistent-data flag, and remove the timer. -/
def finish_rendering (rs : RunState) (scene : Scene) : Scene :=
  let s1 := { scene with frame_current := rs.origFrame }
  let s2 := { s1 with filepath := rs.origFilepath }
  let s3 :=
    if rs.formatSwitched && !(rs.origFormat == "") then
      { s2 with file_format := rs.origFormat }
    else s2
  let s4 := { s3 with use_persistent_data := rs.origPersistent }
  { s4 with timerActive := false }

/-- `cancel_rendering`: the restoration performed on user cancellation
(translated from its own source lines 821-853). -/
def cancel_rendering (rs : RunState) (scene : Scene) : Scene :=
  let s1 := { scene with frame_current := rs.origFrame }
  let s2 := { s1 with filepath := rs.origFilepath }
  let s3 :=
    if rs.formatSwitched && !(rs.origFormat == "") then
      { s2 with file_format := rs.origFormat }
    else s2
  let s4 := { s3 with use_persistent_data := rs.origPersistent }
  { s4 with timerActive := false }

/-- `os.path.join` as used with a folder and a file name. -/
def joinPath (a b : String) : String :=
  if a = "" then b
  else if a.data.getLast? = some '/' then a ++ b
  else a ++ "/" ++ b

/-- File extension derived from the render format
(`png→.png, jpeg→.jpg, tiff→.tif, exr→.exr`, default `.png`). -/
def extensionFor (fmt : String) : String :=
  let f := fmt.data.map Char.toLower
  if f = "png".data then ".png"
  else if f = "jpeg".data then ".jpg"
  else if f = "tiff".data then ".tif"
  else if f = "exr".data then ".exr"
  else ".png"

/-- `setup_compositor_for_pass`: a no-op for Combined; otherwise enable
nodes and add the two temporary nodes, returning the captured
`use_nodes` flag and created-node names. -/
def setup_compositor_for_pass (scene : Scene) (channel_name : String) :
    (Bool × List String) × Scene :=
  if channel_name = "Combined" then ((scene.use_nodes, []), scene)
  else
    (((scene.use_nodes, ["FRH_TempRenderLayers", "FRH_TempComposite"])),
     { scene with use_nodes := true,
                  nodes := scene.nodes ++ ["FRH_TempRenderLayers", "FRH_TempComposite"] })

/-- `restore_compositor_state`: remove exactly the created nodes (first
occurrence by name) and restore the captured `use_nodes` flag. -/
def restore_compositor_state (scene : Scene) (orig : Bool × List String) : Scene :=
  { scene with nodes := orig.2.foldl (fun ns n => ns.erase n) scene.nodes,
               use_nodes := orig.1 }

/-- Per-batch constants of the modal loop: the filename pattern, blend
base name, output folder, the recorded render start time, and the wall
clock for per-frame timestamps. -/
structure ModalCtx where
  pattern : String
  blendName : String
  outputFolder : String
  startTime : DateTime
  now : DateTime
deriving Repr

/-- Result of one timer tick of `modal`: either the terminal transition
(with the restored scene) or a continuation with the updated cursor,
the updated scene, and the (frame, channel) pair rendered this tick, if
any. -/
inductive TickRes where
  | finished (sc : Scene)
  | cont (rs : RunState) (sc : Scene) (rendered : Option (Int × String))
deriving Repr

/-- The host-state mutation performed by one render tick of `modal`
(everything between `scene.frame_set` and the compositor restoration):
set the current frame, compute the filename (passing the channel name
only when the pattern holds the `(Channel)` token or more than one
channel is selected), set the output filepath, enable automatic file
extensions, and wire then restore the compositor for the selected
pass. -/
def renderTickScene (ctx : ModalCtx) (rs : RunState) (scene : Scene) : Scene :=
  let frame_num := rs.frames.getD rs.frameIdx 0
  let channel_name := (rs.channels.getD rs.chanIdx ("", "")).1
  let s1 := { scene with frame_current := frame_num }
  let camera_name := scene.camera.getD "NoCamera"
  let view_layer_name :=
    match scene.viewLayers with
    | [] => "ViewLayer"
    | vl :: _ => vl.name
  let filename :=
    if containsSub ctx.pattern.data "(Channel)".data || 1 < rs.channels.length then
      generate_filename_from_pattern ctx.pattern (some ctx.blendName)
        (some camera_name) frame_num (some ctx.startTime) none
        (some channel_name) (some view_layer_name) ctx.now
    else
      generate_filename_from_pattern ctx.pattern (some ctx.blendName)
        (some camera_name) frame_num (some ctx.startTime) none
        none (some view_layer_name) ctx.now
  let s2 := { s1 with use_file_extension := true,
                      filepath := joinPath ctx.outputFolder filename }
  let (compOrig, s3) := setup_compositor_for_pass s2 channel_name
  restore_compositor_state s3 compOrig

/-- One `'TIMER'` tick of `RENDER_OT_specific_frames.modal`: finish when
all frames are consumed; advance the frame cursor (rendering nothing)
when all channels of the current frame are consumed; otherwise perform
one render unit (recorded as the tick's rendered pair) and advance the
channel cursor. -/
def modalTick (ctx : ModalCtx) (rs : RunState) (scene : Scene) : TickRes :=
  if rs.frames.length ≤ rs.frameIdx then
    .finished (finish_rendering rs scene)
  else if rs.channels.length ≤ rs.chanIdx then
    .cont { rs with frameIdx := rs.frameIdx + 1, chanIdx := 0 } scene none
  else
    .cont { rs with chanIdx := rs.chanIdx + 1 } (renderTickScene ctx rs scene)
      (some (rs.frames.getD rs.frameIdx 0, (rs.channels.getD rs.chanIdx ("", "")).1))

/-- Drive the modal loop for a number of timer ticks, collecting the
rendered (frame, channel) pairs; `none` if the loop does not finish
within the given ticks. -/
def runTicks (ctx : ModalCtx) : Nat → RunState → Scene →
    Option (List (Int × String) × Scene)
  | 0, _, _ => none
  | fuel + 1, rs, scene =>
    match modalTick ctx rs scene with
    | .finished sc => some ([], sc)
    | .cont rs' sc' r =>
      match runTicks ctx fuel rs' sc' with
      | some (tr, scFin) =>
        some ((match r with | some p => p :: tr | none => tr), scFin)
      | none => none

def demoVL : ViewLayer :=
  { name := "VL", use_pass_z := true, use_pass_mist := false,
    use_pass_normal := false, use_pass_diffuse_direct := false,
    use_pass_glossy_direct := false, use_pass_emit := false,
    use_pass_diffuse_color := false, use_pass_glossy_color := false,
    use_pass_transmission_direct := false, use_pass_transmission_color := false,
    use_pass_ambient_occlusion := false, use_pass_shadow := false,
    use_pass_environment := none }

def demoScene : Scene :=
  { viewLayers := [demoVL],
    camera := some "Camera", frame_current := 12, filepath := "//render/",
    file_format := "PNG", use_persistent_data := false,
    use_file_extension := false, use_nodes := false, nodes := [],
    timerActive := false }

def demoCtx : ModalCtx :=
  { pattern := "(FileName)_(Frame)", blendName := "untitled",
    outputFolder := "out", startTime := dt0, now := dt0 }

/-- Spec-side description of the filesystem-safety pass as a per-character
map (the nine invalid characters become underscores). -/
def sanitize (c : Char) : Char :=
  if invalidChars.contains c then '_' else c

/-- Single-character replacement by underscore, the building block of the
safety pass. -/
def subChar (a c : Char) : Char := if c = a then '_' else c

/-- The (frame, channel) render trace the modal loop still has to emit
from a given cursor position. -/
def expectedTrace (rs : RunState) : List (Int × String) :=
  if rs.frameIdx < rs.frames.length then
    (rs.channels.drop rs.chanIdx).map
        (fun c => (rs.frames.getD rs.frameIdx 0, c.1))
      ++ (rs.frames.drop (rs.frameIdx + 1)).flatMap
        (fun f => rs.channels.map (fun c => (f, c.1)))
  else []

def demoRunState : RunState :=
  { frames := [1, 2], channels := [("Combined", "Combined"), ("Depth", "Depth")],
    frameIdx := 0, chanIdx := 0, origFrame := 12, origFilepath := "//render/",
    origFormat := "FFMPEG", formatSwitched := true, origPersistent := false }

def demoRsE : RunState :=
  { frames := [1, 2], channels := [("Combined", "Combined"), ("Depth", "Depth")],
    frameIdx := 0, chanIdx := 0, origFrame := 12, origFilepath := "//render/",
    origFormat := "PNG", formatSwitched := false, origPersistent := false }

def demoScE : Scene :=
  { demoScene with use_persistent_data := true, timerActive := true }

example : get_selected_channels demoScene = [("Combined", "Combined"), ("Depth", "Depth")] := by decide
example : executeOp "1,2" demoScene = (.ok demoRsE, demoScE) := by decide
example :
    (runTicks demoCtx 10
      { frames := [1, 2], channels := [("Combined", "Combined"), ("Depth", "Depth")],
        frameIdx := 0, chanIdx := 0, origFrame := 12, origFilepath := "//render/",
        origFormat := "PNG", formatSwitched := false, origPersistent := false }
      demoScene).map Prod.fst
    = some [(1, "Combined"), (1, "Depth"), (2, "Combined"), (2, "Depth")] := by decide

example : resolveFrames "3,1,2,1" = .ok [1, 2, 3] := by decide
example : resolveFrames "1-3,5" = .ok [1, 2, 3, 5] := by decide
example : resolveFrames "5-3" = .error (.invalidRange "5-3") := by decide
example : resolveFrames "1-2-3" = .error (.invalidRangeFormat "1-2-3") := by decide
example : resolveFrames "5-" = .error (.invalidFrameToken "5-") := by decide
example : resolveFrames "abc" = .error (.invalidFrameToken "abc") := by decide
example : resolveFrames "" = .error .emptyInput := by decide
example : resolveFrames ",," = .error .emptyFrameSet := by decide
example : resolveFrames "0" = .ok [0] := by decide
example : resolveFrames " 1 - 3 , 7 " = .ok [1, 2, 3, 7] := by decide

/-! ## Lemmas about string primitives -/

theorem pyReplaceF_of_not_contains (old new : List Char) :
    ∀ (fuel : Nat) (s : List Char), containsSub s old = false →
      pyReplaceF old new fuel s = s := by
  intro fuel
  induction fuel with
  | zero => intro s _; rfl
  | succ fuel ih =>
    intro s h
    unfold containsSub at h
    split at h
    · cases h
    · unfold pyReplaceF
      split
      · simp_all
      · cases s with
        | nil => rfl
        | cons c rest =>
          simp only [List.cons.injEq, true_and]
          exact ih rest h

theorem pyReplace_of_not_contains (s old new : List Char)
    (h : containsSub s old = false) : pyReplace s old new = s := by
  cases old with
  | nil =>
    exfalso
    unfold containsSub at h
    simp [List.isPrefixOf] at h
  | cons a as => exact pyReplaceF_of_not_contains _ _ _ _ h

theorem pyReplaceF_single (a b : Char) :
    ∀ (fuel : Nat) (s : List Char), s.length ≤ fuel →
      pyReplaceF [a] [b] fuel s = s.map (fun c => if c = a then b else c) := by
  intro fuel
  induction fuel with
  | zero =>
    intro s hs
    have : s = [] := List.eq_nil_of_length_eq_zero (Nat.le_zero.mp hs)
    subst this; rfl
  | succ fuel ih =>
    intro s hs
    cases s with
    | nil => simp [pyReplaceF, List.isPrefixOf]
    | cons c rest =>
      unfold pyReplaceF
      have hpre : [a].isPrefixOf (c :: rest) = (a == c) := by
        simp [List.isPrefixOf]
      rw [hpre]
      simp only [List.length_cons] at hs
      by_cases hac : a = c
      · subst hac
        simp only [beq_self_eq_true, if_true, List.length_singleton,
          List.drop_succ_cons, List.drop_zero, List.map_cons, if_pos rfl,
          List.singleton_append]
        rw [ih rest (Nat.le_of_succ_le_succ hs)]
      · have hb : (a == c) = false := by simp [hac]
        rw [hb]
        simp only [Bool.false_eq_true, if_false, List.map_cons]
        rw [ih rest (Nat.le_of_succ_le_succ hs),
          if_neg (fun h => hac h.symm)]

theorem pyReplace_single (a b : Char) (s : List Char) :
    pyReplace s [a] [b] = s.map (fun c => if c = a then b else c) := by
  unfold pyReplace
  exact pyReplaceF_single a b s.length s (Nat.le_refl _)

theorem pyReplace_subChar (a : Char) (s : List Char) :
    pyReplace s [a] ['_'] = s.map (subChar a) := by
  rw [pyReplace_single]; rfl

theorem sanitize_apps (c : Char) :
    subChar '*' (subChar '?' (subChar '|' (subChar '\\' (subChar '/'
      (subChar '\"' (subChar ':' (subChar '>' (subChar '<' c)))))))) = sanitize c := by
  by_cases h1 : c = '<'; · subst h1; decide
  rw [show subChar '<' c = c from by simp [subChar, h1]]
  by_cases h2 : c = '>'; · subst h2; decide
  rw [show subChar '>' c = c from by simp [subChar, h2]]
  by_cases h3 : c = ':'; · subst h3; decide
  rw [show subChar ':' c = c from by simp [subChar, h3]]
  by_cases h4 : c = '\"'; · subst h4; decide
  rw [show subChar '\"' c = c from by simp [subChar, h4]]
  by_cases h5 : c = '/'; · subst h5; decide
  rw [show subChar '/' c = c from by simp [subChar, h5]]
  by_cases h6 : c = '\\'; · subst h6; decide
  rw [show subChar '\\' c = c from by simp [subChar, h6]]
  by_cases h7 : c = '|'; · subst h7; decide
  rw [show subChar '|' c = c from by simp [subChar, h7]]
  by_cases h8 : c = '?'; · subst h8; decide
  rw [show subChar '?' c = c from by simp [subChar, h8]]
  by_cases h9 : c = '*'; · subst h9; decide
  rw [show subChar '*' c = c from by simp [subChar, h9]]
  simp [sanitize, invalidChars, h1, h2, h3, h4, h5, h6, h7, h8, h9]

theorem map_pipeline : ∀ l : List Char,
    ((((((((l.map (subChar '<')).map (subChar '>')).map (subChar ':')).map
      (subChar '\"')).map (subChar '/')).map (subChar '\\')).map
      (subChar '|')).map (subChar '?')).map (subChar '*') = l.map sanitize := by
  intro l
  induction l with
  | nil => rfl
  | cons c cs ih =>
    simp only [List.map_cons]
    rw [ih]
    simp only [List.cons.injEq]
    exact ⟨sanitize_apps c, trivial⟩

theorem safetyList_eq_map (l : List Char) : safetyList l = l.map sanitize := by
  unfold safetyList invalidChars
  simp only [List.foldl_cons, List.foldl_nil]
  rw [pyReplace_subChar, pyReplace_subChar, pyReplace_subChar, pyReplace_subChar,
    pyReplace_subChar, pyReplace_subChar, pyReplace_subChar, pyReplace_subChar,
    pyReplace_subChar]
  exact map_pipeline l

theorem sanitize_idem (c : Char) : sanitize (sanitize c) = sanitize c := by
  unfold sanitize
  split
  · decide
  · simp_all

theorem safetyList_idem (l : List Char) : safetyList (safetyList l) = safetyList l := by
  rw [safetyList_eq_map, safetyList_eq_map, List.map_map]
  refine List.map_congr_left ?_
  intro c _
  exact sanitize_idem c

/-! ## Lemmas about `insortND` and `sortedDedup` -/

theorem insort_mem (x a : Int) : ∀ l, a ∈ insortND x l ↔ a = x ∨ a ∈ l := by
  intro l
  induction l with
  | nil => simp [insortND]
  | cons y ys ih =>
    unfold insortND
    split_ifs with h1 h2
    · simp [List.mem_cons]
    · subst h2
      simp only [List.mem_cons]
      constructor
      · intro h; exact Or.inr h
      · rintro (rfl | h)
        · exact Or.inl rfl
        · exact h
    · simp only [List.mem_cons, ih]
      constructor
      · rintro (rfl | (rfl | h))
        · exact Or.inr (Or.inl rfl)
        · exact Or.inl rfl
        · exact Or.inr (Or.inr h)
      · rintro (rfl | (rfl | h))
        · exact Or.inr (Or.inl rfl)
        · exact Or.inl rfl
        · exact Or.inr (Or.inr h)

theorem insort_pairwise (x : Int) :
    ∀ l, List.Pairwise (· < ·) l → List.Pairwise (· < ·) (insortND x l) := by
  intro l
  induction l with
  | nil => intro _; simp [insortND]
  | cons y ys ih =>
    intro hp
    rw [List.pairwise_cons] at hp
    unfold insortND
    split_ifs with h1 h2
    · rw [List.pairwise_cons]
      refine ⟨?_, List.pairwise_cons.mpr hp⟩
      intro z hz
      rcases List.mem_cons.mp hz with rfl | hz
      · exact h1
      · exact lt_trans h1 (hp.1 z hz)
    · exact List.pairwise_cons.mpr hp
    · rw [List.pairwise_cons]
      refine ⟨?_, ih hp.2⟩
      intro z hz
      rcases (insort_mem x z ys).mp hz with rfl | hz
      · omega
      · exact hp.1 z hz

theorem sortedDedup_pairwise (l : List Int) :
    List.Pairwise (· < ·) (sortedDedup l) := by
  induction l with
  | nil => simp [sortedDedup]
  | cons x xs ih => exact insort_pairwise x _ ih

theorem sortedDedup_mem (a : Int) (l : List Int) :
    a ∈ sortedDedup l ↔ a ∈ l := by
  induction l with
  | nil => simp [sortedDedup]
  | cons x xs ih =>
    show a ∈ insortND x (sortedDedup xs) ↔ _
    rw [insort_mem, ih, List.mem_cons]

/-! ## Lemmas about the frame parser -/

theorem mem_trimChars {c : Char} {l : List Char} (h : c ∈ trimChars l) : c ∈ l := by
  unfold trimChars at h
  rw [List.mem_reverse] at h
  have h2 := (List.dropWhile_sublist _).mem h
  rw [List.mem_reverse] at h2
  exact (List.dropWhile_sublist _).mem h2

theorem splitOnChar_no_sep (sep : Char) :
    ∀ l p, p ∈ splitOnChar sep l → sep ∉ p := by
  intro l
  induction l with
  | nil =>
    intro p hp
    simp only [splitOnChar, List.mem_singleton] at hp
    subst hp; simp
  | cons c rest ih =>
    intro p hp
    unfold splitOnChar at hp
    by_cases hc : c = sep
    · rw [if_pos hc] at hp
      rcases List.mem_cons.mp hp with rfl | hp
      · simp
      · exact ih p hp
    · rw [if_neg hc] at hp
      cases hr : splitOnChar sep rest with
      | nil =>
        rw [hr] at hp
        simp only [List.mem_singleton] at hp
        subst hp
        simp only [List.mem_singleton]
        exact fun h => hc h.symm
      | cons g gs =>
        rw [hr] at hp
        rcases List.mem_cons.mp hp with rfl | hp
        · intro hmem
          rcases List.mem_cons.mp hmem with h | h
          · exact hc h.symm
          · exact ih g (by rw [hr]; exact List.mem_cons_self _ _) h
        · exact ih p (by rw [hr]; exact List.mem_cons_of_mem _ hp)

theorem pyInt_nonneg {l : List Char} {n : Int}
    (hm : '-' ∉ l) (h : pyInt l = some n) : 0 ≤ n := by
  unfold pyInt at h
  cases ht : trimChars l with
  | nil => rw [ht] at h; cases h
  | cons c rest =>
    rw [ht] at h
    dsimp only at h
    have hc : c ≠ '-' := by
      intro hc
      exact hm (mem_trimChars (by rw [ht, hc]; exact List.mem_cons_self _ _))
    rw [if_neg hc] at h
    by_cases hp : c = '+'
    · rw [if_pos hp] at h
      cases rest with
      | nil => cases h
      | cons d ds =>
        dsimp only at h
        by_cases hd : d.isDigit
        · rw [if_pos hd] at h
          rcases Option.map_eq_some'.mp h with ⟨m, _, rfl⟩
          exact Int.ofNat_nonneg m
        · rw [if_neg hd] at h; cases h
    · rw [if_neg hp] at h
      by_cases hd : c.isDigit
      · rw [if_pos hd] at h
        rcases Option.map_eq_some'.mp h with ⟨m, _, rfl⟩
        exact Int.ofNat_nonneg m
      · rw [if_neg hd] at h; cases h

theorem rangeList_low {a b n : Int} (h : n ∈ rangeList a b) : a ≤ n := by
  unfold rangeList at h
  rcases List.mem_map.mp h with ⟨k, _, rfl⟩
  exact le_add_of_nonneg_right (Int.ofNat_nonneg k)

theorem not_mem_of_contains_false {l : List Char} {c : Char}
    (h : l.contains c = false) : c ∉ l := by
  simp at h
  exact h

theorem parseToken_nonneg {t : List Char} {xs : List Int}
    (h : parseToken t = .ok xs) : ∀ n ∈ xs, 0 ≤ n := by
  unfold parseToken at h
  split at h
  case isTrue hc =>
    split at h
    case h_1 p0 p1 heq =>
      split at h
      case h_1 a b ha hb =>
        split at h
        case isTrue hab =>
          cases h
          intro n hn
          have hp0 : p0 ∈ splitOnChar '-' t := by
            rw [heq]; exact List.mem_cons_self _ _
          have hnodash : '-' ∉ p0 := splitOnChar_no_sep '-' t p0 hp0
          have ha0 : 0 ≤ a := pyInt_nonneg hnodash ha
          exact le_trans ha0 (rangeList_low hn)
        case isFalse => cases h
      case h_2 => cases h
    case h_2 => cases h
  case isFalse hc =>
    split at h
    case h_1 n hn =>
      cases h
      intro m hm
      rcases List.mem_singleton.mp hm with rfl
      have : '-' ∉ t := not_mem_of_contains_false (by
        cases hcc : t.contains '-'
        · rfl
        · exact absurd hcc hc)
      exact pyInt_nonneg this hn
    case h_2 => cases h

theorem collectFrames_nonneg :
    ∀ toks all, collectFrames toks = .ok all → ∀ n ∈ all, 0 ≤ n := by
  intro toks
  induction toks with
  | nil =>
    intro all h
    cases h
    intro n hn
    cases hn
  | cons tok rest ih =>
    intro all h
    unfold collectFrames at h
    by_cases ht : trimChars tok = []
    · rw [if_pos ht] at h
      exact ih all h
    · rw [if_neg ht] at h
      cases hpt : parseToken (trimChars tok) with
      | error e => rw [hpt] at h; cases h
      | ok xs =>
        rw [hpt] at h
        cases hcf : collectFrames rest with
        | error e => rw [hcf] at h; cases h
        | ok ys =>
          rw [hcf] at h
          dsimp only at h
          cases h
          intro n hn
          rcases List.mem_append.mp hn with hn | hn
          · exact parseToken_nonneg hpt n hn
          · exact ih ys hcf n hn

theorem resolve_ok_elim {s : String} {fs : List Int}
    (h : resolveFrames s = .ok fs) :
    ∃ all, collectFrames (splitOnChar ',' (trimChars s.data)) = .ok all ∧
      all ≠ [] ∧ fs = sortedDedup all := by
  unfold resolveFrames at h
  by_cases he : trimChars s.data = []
  · rw [if_pos he] at h; cases h
  · rw [if_neg he] at h
    cases hcf : collectFrames (splitOnChar ',' (trimChars s.data)) with
    | error e => rw [hcf] at h; cases h
    | ok all =>
      rw [hcf] at h
      dsimp only at h
      by_cases hne : all = []
      · rw [if_pos hne] at h; cases h
      · rw [if_neg hne] at h
        cases h
        exact ⟨all, rfl, hne, rfl⟩

/-! ## Claim theorems: frame-set resolver -/

/-- Claim C3: for every frame-spec string on which resolution succeeds,
the resulting frame list is strictly ascending with no duplicates
(`Pairwise (<)`), and contains exactly the integers contributed by the
tokens and ranges (the collected, pre-deduplication list); in particular
`resolve "3,1,2,1" = [1,2,3]` and `resolve "1-3,5" = [1,2,3,5]`. -/
theorem C3_resolve_sorted_union :
    (∀ (s : String) (fs : List Int), resolveFrames s = .ok fs →
      List.Pairwise (· < ·) fs ∧
      ∃ all, collectFrames (splitOnChar ',' (trimChars s.data)) = .ok all ∧
        (∀ n : Int, n ∈ fs ↔ n ∈ all)) ∧
    resolveFrames "3,1,2,1" = .ok [1, 2, 3] ∧
    resolveFrames "1-3,5" = .ok [1, 2, 3, 5] := by
  refine ⟨?_, by decide, by decide⟩
  intro s fs h
  obtain ⟨all, hc, _, rfl⟩ := resolve_ok_elim h
  exact ⟨sortedDedup_pairwise all, all, hc, fun n => sortedDedup_mem n all⟩

/-- Witness for C3 at the concrete input `"3,1,2,1"`. -/
theorem C3_witness :
    List.Pairwise (· < ·) ([1, 2, 3] : List Int) :=
  (C3_resolve_sorted_union.1 "3,1,2,1" [1, 2, 3] (by decide)).1

/-- Counterexample to claim C4: a range token with a missing part
(`"5-"`) fails with the invalid-frame-token error (Python's `int('')`
raises `ValueError`, caught by the token loop), not with the
invalid-range-format error the claim requires. -/
theorem C4_counterexample :
    resolveFrames "5-" = .error (.invalidFrameToken "5-") ∧
    resolveFrames "5-" ≠ .error (.invalidRangeFormat "5-") := by decide

/-- Claim C4 (amended): for a token containing a hyphen, splitting on
`-` into a number of pieces other than two fails with InvalidRangeFormat;
exactly two pieces where either piece does not parse as an integer
(including a missing part, since `int('')` raises) fail with
InvalidFrameToken; two integer pieces give the inclusive range when
`start ≤ end` and InvalidRange otherwise. -/
theorem C4_range_errors :
    (∀ t : List Char, t.contains '-' = true →
      ((splitOnChar '-' t).length ≠ 2 →
        parseToken t = .error (.invalidRangeFormat (String.mk t))) ∧
      (∀ p0 p1, splitOnChar '-' t = [p0, p1] →
        ((pyInt p0 = none ∨ pyInt p1 = none) →
          parseToken t = .error (.invalidFrameToken (String.mk t))) ∧
        (∀ a b, pyInt p0 = some a → pyInt p1 = some b →
          parseToken t =
            if a ≤ b then .ok (rangeList a b)
            else .error (.invalidRange (String.mk t))))) ∧
    resolveFrames "5-3" = .error (.invalidRange "5-3") ∧
    resolveFrames "1-2-3" = .error (.invalidRangeFormat "1-2-3") ∧
    resolveFrames "1-3" = .ok [1, 2, 3] := by
  refine ⟨?_, by decide, by decide, by decide⟩
  intro t hc
  constructor
  · intro hlen
    unfold parseToken
    rw [if_pos hc]
    cases hs : splitOnChar '-' t with
    | nil => rfl
    | cons p ps =>
      cases ps with
      | nil => rfl
      | cons q qs =>
        cases qs with
        | nil => exact absurd (by rw [hs]; rfl) hlen
        | cons r rs => rfl
  · intro p0 p1 hs
    constructor
    · intro hnone
      unfold parseToken
      rw [if_pos hc, hs]
      dsimp only
      rcases hnone with h0 | h1
      · cases hp1 : pyInt p1 with
        | none => rw [h0]
        | some b => rw [h0]
      · cases hp0 : pyInt p0 with
        | none => rfl
        | some a => rw [h1]
    · intro a b h0 h1
      unfold parseToken
      rw [if_pos hc, hs]
      dsimp only
      rw [h0, h1]

/-- Witness for the amended C4 at the concrete token `"1-2-3"`. -/
theorem C4_amended_witness :
    parseToken "1-2-3".data =
      .error (.invalidRangeFormat (String.mk "1-2-3".data)) :=
  (C4_range_errors.1 "1-2-3".data (by decide)).1 (by decide)

/-- Claim C5: a frame-spec parse failure is returned before any host
state is touched: `execute` yields the error and the scene (current
frame, filepath, format, persistence flag, compositor graph, timer) is
returned exactly as it was; no run state (captured originals) exists. -/
theorem C5_parse_error_no_mutation :
    ∀ (s : String) (scene : Scene) (e : ParseError),
      resolveFrames s = .error e →
      executeOp s scene = (.error e, scene) := by
  intro s scene e h
  unfold executeOp
  rw [h]

/-- Witness for C5 at the concrete failing input `"5-3"`. -/
theorem C5_witness :
    executeOp "5-3" demoScene = (.error (.invalidRange "5-3"), demoScene) :=
  C5_parse_error_no_mutation "5-3" demoScene _ (by decide)

/-- Claim C8: the filesystem-safety pass is idempotent, and it runs on
the fully substituted string: an invalid character arriving through a
substituted value (`fileBaseName = "a/b"`) is replaced, and a pattern
whose datetime format contains `:` still has its datetime token expanded
before the colons are sanitized (`"(Start:HH:mm)" ↦ "17_21"`). -/
theorem C8_safety_idempotent :
    (∀ l : List Char, safetyList (safetyList l) = safetyList l) ∧
    generate_filename_from_pattern "(FileName)" (some "a/b") none 1 none none
      none none dt0 = "a_b" ∧
    generate_filename_from_pattern "(Start:HH:mm)" none none 1 (some dt0) none
      none none dt0 = "17_21" :=
  ⟨safetyList_idem, by decide, by decide⟩

/-- Counterexample to claim C9: `"0"` resolves successfully to `[0]`,
which contains an element that is not strictly positive. -/
theorem C9_counterexample :
    resolveFrames "0" = .ok [0] ∧ (0 : Int) ∈ ([0] : List Int) ∧
      ¬ (0 : Int) < (0 : Int) := by decide

/-- Claim C9 (amended): every successfully resolved frame list contains
only non-negative integers (a `-` in a token always routes it to range
parsing, so no negative value can be produced; zero, however, is
accepted). -/
theorem C9_resolved_frames_nonneg :
    ∀ (s : String) (fs : List Int), resolveFrames s = .ok fs →
      ∀ n ∈ fs, 0 ≤ n := by
  intro s fs h n hn
  obtain ⟨all, hc, _, rfl⟩ := resolve_ok_elim h
  exact collectFrames_nonneg _ all hc n ((sortedDedup_mem n all).mp hn)

/-- Witness for the amended C9 at the concrete input `"3,1,2,1"`. -/
theorem C9_amended_witness : (0 : Int) ≤ 1 :=
  C9_resolved_frames_nonneg "3,1,2,1" [1, 2, 3] (by decide) 1 (by decide)

/-! ## Claim theorems: restoration and channel resolution -/

/-- Claim C2: the terminal transitions restore the captured host state.
First conjunct: the restoration performed on cancellation is the very
same function as the one performed on completion.  Second conjunct: the
restoration sets the current frame, filepath, and persistence flag to
the captured originals, removes the timer, restores the image format
when it was substituted (and the captured original is non-empty), and
leaves the format untouched when it was not substituted.  Third
conjunct: a successful `execute` captures exactly the pre-batch values
of those settings. -/
theorem C2_restoration :
    (∀ (rs : RunState) (scene : Scene),
      cancel_rendering rs scene = finish_rendering rs scene) ∧
    (∀ (rs : RunState) (scene : Scene),
      (finish_rendering rs scene).frame_current = rs.origFrame ∧
      (finish_rendering rs scene).filepath = rs.origFilepath ∧
      (finish_rendering rs scene).use_persistent_data = rs.origPersistent ∧
      (finish_rendering rs scene).timerActive = false ∧
      (rs.formatSwitched = true → rs.origFormat ≠ "" →
        (finish_rendering rs scene).file_format = rs.origFormat) ∧
      (rs.formatSwitched = false →
        (finish_rendering rs scene).file_format = scene.file_format)) ∧
    (∀ (s : String) (scene : Scene) (rs : RunState) (sc : Scene),
      executeOp s scene = (.ok rs, sc) →
      rs.origFrame = scene.frame_current ∧
      rs.origFilepath = scene.filepath ∧
      rs.origFormat = scene.file_format ∧
      rs.origPersistent = scene.use_persistent_data) := by
  refine ⟨fun rs scene => rfl, ?_, ?_⟩
  · intro rs scene
    by_cases h : (rs.formatSwitched && !(rs.origFormat == "")) = true
    · refine ⟨?_, ?_, ?_, ?_, fun _ _ => ?_, ?_⟩
      · simp [finish_rendering, h]
      · simp [finish_rendering, h]
      · simp [finish_rendering, h]
      · simp [finish_rendering, h]
      · simp [finish_rendering, h]
      · intro hsw
        rw [hsw] at h
        simp at h
    · refine ⟨?_, ?_, ?_, ?_, ?_, fun _ => ?_⟩
      · simp [finish_rendering, h]
      · simp [finish_rendering, h]
      · simp [finish_rendering, h]
      · simp [finish_rendering, h]
      · intro hsw hne
        exfalso
        apply h
        rw [hsw]
        simp [hne]
      · simp [finish_rendering, h]
  · intro s scene rs sc h
    unfold executeOp at h
    cases hr : resolveFrames s with
    | error e => rw [hr] at h; simp at h
    | ok frames =>
      rw [hr] at h
      dsimp only at h
      rw [Prod.mk.injEq] at h
      obtain ⟨h1, _⟩ := h
      rw [Except.ok.injEq] at h1
      subst h1
      exact ⟨rfl, rfl, rfl, rfl⟩

/-- Witness for C2 at a concrete run state and scene (the run state has
a switched FFMPEG format, exercising the format-restore branch), plus
the capture guarantee at the concrete batch request `"1,2"`. -/
theorem C2_witness :
    cancel_rendering demoRunState demoScene = finish_rendering demoRunState demoScene ∧
    (finish_rendering demoRunState demoScene).frame_current = demoRunState.origFrame ∧
    (finish_rendering demoRunState demoScene).file_format = demoRunState.origFormat ∧
    demoRsE.origFrame = demoScene.frame_current :=
  ⟨C2_restoration.1 demoRunState demoScene,
   (C2_restoration.2.1 demoRunState demoScene).1,
   (C2_restoration.2.1 demoRunState demoScene).2.2.2.2.1 rfl (by decide),
   (C2_restoration.2.2 "1,2" demoScene demoRsE demoScE (by decide)).1⟩

theorem ite_append_singleton {α : Type} (b : Bool) (l : List α) (x : α) :
    (if b then l ++ [x] else l) = l ++ (if b then [x] else []) := by
  cases b <;> simp

theorem filterTable (vl : ViewLayer) (nm : String) (f : ViewLayer → Bool)
    (rest : List (String × (ViewLayer → Bool))) :
    (((nm, f) :: rest).filter (fun p => p.2 vl)).map (fun p => (p.1, p.1)) =
      (if f vl then [(nm, nm)] else []) ++
        ((rest.filter (fun p => p.2 vl)).map (fun p => (p.1, p.1))) := by
  by_cases h : f vl = true
  · simp [List.filter_cons, h]
  · simp [List.filter_cons, h]

/-- Claim C10: channel resolution returns Combined first, then exactly
the enabled passes of the first view layer in the fixed source order
(the spec-side `channelsSpec`), the head is always Combined, and with no
view layers the result is exactly `[Combined]`. -/
theorem C10_channels :
    (∀ scene : Scene, get_selected_channels scene = channelsSpec scene) ∧
    (∀ scene : Scene,
      (get_selected_channels scene).head? = some ("Combined", "Combined")) ∧
    (∀ scene : Scene, scene.viewLayers = [] →
      get_selected_channels scene = [("Combined", "Combined")]) := by
  have hmain : ∀ scene : Scene, get_selected_channels scene = channelsSpec scene := by
    intro scene
    cases hvl : scene.viewLayers with
    | nil => simp [get_selected_channels, channelsSpec, hvl]
    | cons vl rest =>
      simp only [get_selected_channels, channelsSpec, hvl, passTable]
      simp only [ite_append_singleton, filterTable]
      simp [List.append_assoc]
  refine ⟨hmain, ?_, ?_⟩
  · intro scene
    rw [hmain scene]
    cases hvl : scene.viewLayers with
    | nil => simp [channelsSpec, hvl]
    | cons vl rest => simp [channelsSpec, hvl]
  · intro scene h
    rw [hmain scene]
    simp [channelsSpec, h]

/-- Witness for C10 at a concrete scene with no view layers. -/
theorem C10_witness :
    get_selected_channels { demoScene with viewLayers := [] } =
      [("Combined", "Combined")] :=
  C10_channels.2.2 { demoScene with viewLayers := [] } rfl

/-! ## The modal loop renders frames × channels in order -/

theorem expectedTrace_stop {rs : RunState} (h : rs.frames.length ≤ rs.frameIdx) :
    expectedTrace rs = [] := by
  unfold expectedTrace
  rw [if_neg (by omega)]

theorem expectedTrace_advance {rs : RunState}
    (h1 : rs.frameIdx < rs.frames.length) (h2 : rs.channels.length ≤ rs.chanIdx) :
    expectedTrace rs =
      expectedTrace { rs with frameIdx := rs.frameIdx + 1, chanIdx := 0 } := by
  unfold expectedTrace
  dsimp only
  rw [if_pos h1, List.drop_eq_nil_of_le h2]
  simp only [List.map_nil, List.nil_append]
  by_cases hi : rs.frameIdx + 1 < rs.frames.length
  · rw [if_pos hi, List.drop_eq_getElem_cons hi, List.flatMap_cons,
      List.drop_zero, List.getD_eq_getElem rs.frames 0 hi]
  · rw [if_neg hi, List.drop_eq_nil_of_le (by omega)]
    rfl

theorem expectedTrace_render {rs : RunState}
    (h1 : rs.frameIdx < rs.frames.length) (h2 : rs.chanIdx < rs.channels.length) :
    expectedTrace rs =
      (rs.frames.getD rs.frameIdx 0, (rs.channels.getD rs.chanIdx ("", "")).1) ::
        expectedTrace { rs with chanIdx := rs.chanIdx + 1 } := by
  unfold expectedTrace
  dsimp only
  rw [if_pos h1, if_pos h1, List.drop_eq_getElem_cons h2, List.map_cons,
    List.getD_eq_getElem rs.channels ("", "") h2]
  rfl

theorem runTicks_complete (ctx : ModalCtx) :
    ∀ (fuel : Nat) (rs : RunState) (scene : Scene),
      rs.chanIdx ≤ rs.channels.length →
      (rs.frames.length - rs.frameIdx) * (rs.channels.length + 1) +
        (rs.channels.length + 1 - rs.chanIdx) + 1 ≤ fuel →
      ∃ sc, runTicks ctx fuel rs scene = some (expectedTrace rs, sc) := by
  intro fuel
  induction fuel with
  | zero =>
    intro rs scene hj hb
    exact absurd hb (Nat.not_succ_le_zero _)
  | succ fuel ih =>
    intro rs scene hj hb
    by_cases h1 : rs.frames.length ≤ rs.frameIdx
    · refine ⟨finish_rendering rs scene, ?_⟩
      have hstep : modalTick ctx rs scene = .finished (finish_rendering rs scene) := by
        unfold modalTick; rw [if_pos h1]
      unfold runTicks
      rw [hstep]
      dsimp only
      rw [expectedTrace_stop h1]
    · have h1' : rs.frameIdx < rs.frames.length := Nat.lt_of_not_le h1
      by_cases h2 : rs.channels.length ≤ rs.chanIdx
      · have hstep : modalTick ctx rs scene =
            .cont { rs with frameIdx := rs.frameIdx + 1, chanIdx := 0 } scene none := by
          unfold modalTick; rw [if_neg h1, if_pos h2]
        have hj' : (0 : Nat) ≤ rs.channels.length := Nat.zero_le _
        have hb' : (rs.frames.length - (rs.frameIdx + 1)) * (rs.channels.length + 1) +
            (rs.channels.length + 1 - 0) + 1 ≤ fuel := by
          have hx : rs.frames.length - rs.frameIdx =
              (rs.frames.length - (rs.frameIdx + 1)) + 1 := by omega
          rw [hx, Nat.succ_mul] at hb
          generalize (rs.frames.length - (rs.frameIdx + 1)) * (rs.channels.length + 1) = A at hb ⊢
          omega
        obtain ⟨sc, hrun⟩ :=
          ih { rs with frameIdx := rs.frameIdx + 1, chanIdx := 0 } scene hj' hb'
        refine ⟨sc, ?_⟩
        unfold runTicks
        rw [hstep]
        dsimp only
        rw [hrun]
        dsimp only
        rw [expectedTrace_advance h1' h2]
      · have h2' : rs.chanIdx < rs.channels.length := Nat.lt_of_not_le h2
        have hstep : modalTick ctx rs scene =
            .cont { rs with chanIdx := rs.chanIdx + 1 } (renderTickScene ctx rs scene)
              (some (rs.frames.getD rs.frameIdx 0,
                (rs.channels.getD rs.chanIdx ("", "")).1)) := by
          unfold modalTick; rw [if_neg h1, if_neg h2]
        have hj'' : rs.chanIdx + 1 ≤ rs.channels.length := h2'
        have hb'' : (rs.frames.length - rs.frameIdx) * (rs.channels.length + 1) +
            (rs.channels.length + 1 - (rs.chanIdx + 1)) + 1 ≤ fuel := by
          generalize (rs.frames.length - rs.frameIdx) * (rs.channels.length + 1) = A at hb ⊢
          omega
        obtain ⟨sc, hrun⟩ :=
          ih { rs with chanIdx := rs.chanIdx + 1 } (renderTickScene ctx rs scene) hj'' hb''
        refine ⟨sc, ?_⟩
        unfold runTicks
        rw [hstep]
        dsimp only
        rw [hrun]
        dsimp only
        rw [expectedTrace_render h1' h2']

theorem expectedTrace_init (F : List Int) (C : List (String × String))
    (o1 : Int) (o2 o3 : String) (o4 o5 : Bool) :
    expectedTrace
      { frames := F, channels := C, frameIdx := 0, chanIdx := 0,
        origFrame := o1, origFilepath := o2, origFormat := o3,
        formatSwitched := o4, origPersistent := o5 } =
      F.flatMap (fun f => C.map (fun c => (f, c.1))) := by
  cases F with
  | nil => rfl
  | cons f fs =>
    unfold expectedTrace
    dsimp only
    rw [if_pos (by simp)]
    simp [List.flatMap_cons]

theorem flatMap_product_length (F : List Int) (C : List (String × String)) :
    (F.flatMap (fun f => C.map (fun c => (f, c.1)))).length =
      F.length * C.length := by
  induction F with
  | nil => simp
  | cons f fs ih =>
    simp only [List.flatMap_cons, List.length_append, List.length_map, ih,
      List.length_cons, Nat.succ_mul]
    omega

/-- Claim C1: a batch over frame list `F` and channel list `C` performs
exactly `|F| * |C|` render-trigger invocations, one per (frame, channel)
pair, with `F` as the outer loop (in list order, ascending as produced
by the resolver) and `C` as the inner loop; in particular frames `[1,2]`
with channels `[Combined, Depth]` render exactly
`[(1,Combined), (1,Depth), (2,Combined), (2,Depth)]`. -/
theorem C1_render_order :
    (∀ (ctx : ModalCtx) (F : List Int) (C : List (String × String))
       (scene : Scene) (o1 : Int) (o2 o3 : String) (o4 o5 : Bool),
      ∃ sc, runTicks ctx ((F.length + 1) * (C.length + 1) + 1)
          { frames := F, channels := C, frameIdx := 0, chanIdx := 0,
            origFrame := o1, origFilepath := o2, origFormat := o3,
            formatSwitched := o4, origPersistent := o5 } scene =
        some (F.flatMap (fun f => C.map (fun c => (f, c.1))), sc)) ∧
    (∀ (F : List Int) (C : List (String × String)),
      (F.flatMap (fun f => C.map (fun c => (f, c.1)))).length =
        F.length * C.length) ∧
    (runTicks demoCtx 10
      { frames := [1, 2], channels := [("Combined", "Combined"), ("Depth", "Depth")],
        frameIdx := 0, chanIdx := 0, origFrame := 12, origFilepath := "//render/",
        origFormat := "PNG", formatSwitched := false, origPersistent := false }
      demoScene).map Prod.fst
    = some [(1, "Combined"), (1, "Depth"), (2, "Combined"), (2, "Depth")] := by
  refine ⟨?_, flatMap_product_length, by decide⟩
  intro ctx F C scene o1 o2 o3 o4 o5
  have hfuel : (F.length - 0) * (C.length + 1) + (C.length + 1 - 0) + 1 ≤
      (F.length + 1) * (C.length + 1) + 1 := by
    simp only [Nat.sub_zero]
    rw [Nat.succ_mul]
  obtain ⟨sc, hrun⟩ := runTicks_complete ctx ((F.length + 1) * (C.length + 1) + 1)
    { frames := F, channels := C, frameIdx := 0, chanIdx := 0,
      origFrame := o1, origFilepath := o2, origFormat := o3,
      formatSwitched := o4, origPersistent := o5 } scene (Nat.zero_le _) hfuel
  refine ⟨sc, ?_⟩
  rw [hrun, expectedTrace_init]

/-! ## Lemmas about substring search and the datetime scanner -/

theorem containsSub_of_no_head {h : Char} {t : List Char} :
    ∀ s : List Char, (∀ c ∈ s, c ≠ h) → containsSub s (h :: t) = false := by
  intro s
  induction s with
  | nil => intro _; rfl
  | cons c rest ih =>
    intro hall
    have hc : c ≠ h := hall c (List.mem_cons_self _ _)
    have hpre : (h :: t).isPrefixOf (c :: rest) = false := by
      cases hbc : (h == c) with
      | false => simp [List.isPrefixOf, hbc]
      | true => exact absurd (eq_of_beq hbc).symm hc
    unfold containsSub
    simp only [hpre, Bool.false_eq_true, if_false]
    exact ih (fun x hx => hall x (List.mem_cons_of_mem _ hx))

theorem isPrefixOf_ne_second {a b c : Char} {as bs : List Char}
    (h : (a == c) = false) :
    (b :: a :: as).isPrefixOf (b :: c :: bs) = false := by
  simp [List.isPrefixOf, h]

theorem containsSub_single_paren {tok body : List Char}
    (hb : '(' ∉ body) (ht : ∃ t', tok = '(' :: t')
    (hpre : tok.isPrefixOf ('(' :: body) = false) :
    containsSub ('(' :: body) tok = false := by
  obtain ⟨t', rfl⟩ := ht
  unfold containsSub
  simp only [hpre, Bool.false_eq_true, if_false]
  exact containsSub_of_no_head body (fun c hc he => hb (he ▸ hc))

theorem isPrefixOf_append (l x : List Char) : l.isPrefixOf (l ++ x) = true := by
  induction l with
  | nil => cases x <;> rfl
  | cons a as ih => simp [List.isPrefixOf, ih]

theorem takeWhile_no_stop {fmt : List Char} (h : ')' ∉ fmt) :
    (fmt ++ [')']).takeWhile (fun c => c ≠ ')') = fmt := by
  induction fmt with
  | nil => rfl
  | cons c cs ih =>
    have hc : c ≠ ')' := fun he => h (he ▸ List.mem_cons_self _ _)
    simp only [List.cons_append, List.takeWhile_cons]
    rw [if_pos (by simpa using hc)]
    rw [ih (fun hx => h (List.mem_cons_of_mem _ hx))]

theorem dropWhile_no_stop {fmt : List Char} (h : ')' ∉ fmt) :
    (fmt ++ [')']).dropWhile (fun c => c ≠ ')') = [')'] := by
  induction fmt with
  | nil => rfl
  | cons c cs ih =>
    have hc : c ≠ ')' := fun he => h (he ▸ List.mem_cons_self _ _)
    simp only [List.cons_append, List.dropWhile_cons]
    rw [if_pos (by simpa using hc)]
    exact ih (fun hx => h (List.mem_cons_of_mem _ hx))

theorem dtSubstF_nil (s e : Option DateTime) (n : DateTime) (fuel : Nat) :
    dtSubstF s e n fuel [] = [] := by
  cases fuel <;> rfl

theorem dtTryKind_self (kw fmt : List Char) (hne : fmt ≠ []) (hnp : ')' ∉ fmt) :
    dtTryKind kw (kw ++ (fmt ++ [')'])) = some (fmt, []) := by
  unfold dtTryKind
  rw [isPrefixOf_append]
  simp only [if_true]
  rw [List.drop_left, dropWhile_no_stop hnp, takeWhile_no_stop hnp]
  dsimp only
  rw [if_pos rfl, if_neg (by simpa using hne)]

theorem dtMatch_start {fmt : List Char} (hne : fmt ≠ []) (hnp : ')' ∉ fmt) :
    dtMatch ("(Start:".data ++ (fmt ++ [')'])) = some (true, fmt, []) := by
  unfold dtMatch
  rw [dtTryKind_self "(Start:".data fmt hne hnp]

theorem dtMatch_end {fmt : List Char} (hne : fmt ≠ []) (hnp : ')' ∉ fmt) :
    dtMatch ("(End:".data ++ (fmt ++ [')'])) = some (false, fmt, []) := by
  unfold dtMatch
  have hs : dtTryKind "(Start:".data ("(End:".data ++ (fmt ++ [')'])) = none := by
    unfold dtTryKind
    rw [show "(End:".data ++ (fmt ++ [')']) =
      '(' :: 'E' :: ("nd:".data ++ (fmt ++ [')'])) from rfl]
    rw [isPrefixOf_ne_second (by rfl)]
    rfl
  rw [hs, dtTryKind_self "(End:".data fmt hne hnp]

theorem dtSubst_start (fmt : List Char) (hne : fmt ≠ []) (hnp : ')' ∉ fmt)
    (st : DateTime) (et : Option DateTime) (now : DateTime) :
    dtSubst (some st) et now ("(Start:".data ++ (fmt ++ [')'])) =
      renderStamp st fmt := by
  unfold dtSubst
  have hlen : ("(Start:".data ++ (fmt ++ [')'])).length = fmt.length + 8 := by
    simp [List.length_append]
  rw [hlen]
  rw [show "(Start:".data ++ (fmt ++ [')']) =
    '(' :: ("Start:".data ++ (fmt ++ [')'])) from rfl]
  rw [show fmt.length + 8 = (fmt.length + 7) + 1 from rfl]
  simp only [dtSubstF]
  rw [show '(' :: ("Start:".data ++ (fmt ++ [')'])) =
    "(Start:".data ++ (fmt ++ [')']) from rfl]
  rw [dtMatch_start hne hnp]
  simp [dtSubstF_nil]

theorem dtSubst_end (fmt : List Char) (hne : fmt ≠ []) (hnp : ')' ∉ fmt)
    (st : Option DateTime) (et : DateTime) (now : DateTime) :
    dtSubst st (some et) now ("(End:".data ++ (fmt ++ [')'])) =
      renderStamp et fmt := by
  unfold dtSubst
  have hlen : ("(End:".data ++ (fmt ++ [')'])).length = fmt.length + 6 := by
    simp [List.length_append]
  rw [hlen]
  rw [show "(End:".data ++ (fmt ++ [')']) =
    '(' :: ("End:".data ++ (fmt ++ [')'])) from rfl]
  rw [show fmt.length + 6 = (fmt.length + 5) + 1 from rfl]
  simp only [dtSubstF]
  rw [show '(' :: ("End:".data ++ (fmt ++ [')'])) =
    "(End:".data ++ (fmt ++ [')']) from rfl]
  rw [dtMatch_end hne hnp]
  simp [dtSubstF_nil]

theorem basicSubst_id (body : List Char) (hb : '(' ∉ body)
    (h1 : "(Camera)".data.isPrefixOf ('(' :: body) = false)
    (h2 : "(Frame)".data.isPrefixOf ('(' :: body) = false)
    (h3 : "(FileName)".data.isPrefixOf ('(' :: body) = false)
    (h4 : "(ViewLayer)".data.isPrefixOf ('(' :: body) = false)
    (bn cam vl : Option (List Char)) (fn : Int) :
    basicSubst ('(' :: body) bn cam vl fn = '(' :: body := by
  unfold basicSubst
  rw [pyReplace_of_not_contains _ _ _ (containsSub_single_paren hb ⟨_, rfl⟩ h1),
      pyReplace_of_not_contains _ _ _ (containsSub_single_paren hb ⟨_, rfl⟩ h2),
      pyReplace_of_not_contains _ _ _ (containsSub_single_paren hb ⟨_, rfl⟩ h3),
      pyReplace_of_not_contains _ _ _ (containsSub_single_paren hb ⟨_, rfl⟩ h4)]

/-! ## Claim theorems: pattern engine channel and datetime tokens -/

/-- Claim C6: the `(Channel)` token is substituted only when the literal
token is present in the string produced by the Camera/Frame/FileName/
ViewLayer substitutions.  When the token is absent there, the supplied
channel name has no effect on the output (no injection anywhere); the
concrete examples show absence (`"(FileName)" ↦ "Scene"`, with no
leftover token), presence (`"Scene_Depth"`), and the `"Combined"`
default when no channel name is supplied. -/
theorem C6_channel_token :
    (∀ (pattern : List Char) (bn cam vl : Option (List Char)) (fn : Int)
       (st et : Option DateTime) (now : DateTime) (c : List Char),
      containsSub (basicSubst pattern bn cam vl fn) "(Channel)".data = false →
      genFilename pattern bn cam vl fn st et (some c) now =
        genFilename pattern bn cam vl fn st et none now) ∧
    generate_filename_from_pattern "(FileName)" (some "Scene") none 1
      none none (some "Depth") none dt0 = "Scene" ∧
    generate_filename_from_pattern "(FileName)_(Channel)" (some "Scene") none 1
      none none (some "Depth") none dt0 = "Scene_Depth" ∧
    generate_filename_from_pattern "(FileName)_(Channel)" (some "Scene") none 1
      none none none none dt0 = "Scene_Combined" := by
  refine ⟨?_, by decide, by decide, by decide⟩
  intro pattern bn cam vl fn st et now c h
  unfold genFilename
  rw [h]
  simp only [Bool.false_eq_true, if_false]

/-- Witness for C6: with the token absent, the output is independent of
the supplied channel name at a concrete input. -/
theorem C6_witness :
    genFilename "(FileName)".data (some "Scene".data) none none 1 none none
      (some "Depth".data) dt0 =
    genFilename "(FileName)".data (some "Scene".data) none none 1 none none
      none dt0 :=
  C6_channel_token.1 "(FileName)".data (some "Scene".data) none none 1
    none none dt0 "Depth".data (by decide)

/-- Claim C7: a pattern consisting of a single `(Start:<fmt>)` (resp.
`(End:<fmt>)`) token, with `<fmt>` non-empty and containing no
parentheses, renders the supplied start (resp. end) timestamp with the
translated format — the literal yyyy/MM/dd/HH/mm/ss replacements
(`translateFmt`) — falling back to the fixed `yyyyMMdd_HHmmss` format
when formatting fails (`renderStamp`); in particular
`"(Start:yyyyMMdd)"` at 2025-10-18T17:21:18 renders `"20251018"`. -/
theorem C7_datetime_tokens :
    (∀ (fmt : List Char) (dtS : DateTime) (bn cam vl : Option (List Char))
       (fn : Int) (et : Option DateTime) (now : DateTime),
      fmt ≠ [] → '(' ∉ fmt → ')' ∉ fmt →
      genFilename ("(Start:".data ++ (fmt ++ [')'])) bn cam vl fn
          (some dtS) et none now =
        safetyList (renderStamp dtS fmt)) ∧
    (∀ (fmt : List Char) (dtE : DateTime) (bn cam vl : Option (List Char))
       (fn : Int) (st : Option DateTime) (now : DateTime),
      fmt ≠ [] → '(' ∉ fmt → ')' ∉ fmt →
      genFilename ("(End:".data ++ (fmt ++ [')'])) bn cam vl fn
          st (some dtE) none now =
        safetyList (renderStamp dtE fmt)) ∧
    generate_filename_from_pattern "(Start:yyyyMMdd)" none none 1 (some dt0)
      none none none dt0 = "20251018" := by
  refine ⟨?_, ?_, by decide⟩
  · intro fmt dtS bn cam vl fn et now hne hp1 hnp
    have hb : '(' ∉ ("Start:".data ++ (fmt ++ [')'])) := by
      intro hmem
      rcases List.mem_append.mp hmem with h | h
      · revert h; decide
      · rcases List.mem_append.mp h with h | h
        · exact hp1 h
        · revert h; decide
    have hbs : basicSubst ("(Start:".data ++ (fmt ++ [')'])) bn cam vl fn =
        "(Start:".data ++ (fmt ++ [')']) := by
      rw [show "(Start:".data ++ (fmt ++ [')']) =
        '(' :: ("Start:".data ++ (fmt ++ [')'])) from rfl]
      exact basicSubst_id _ hb (isPrefixOf_ne_second (by rfl))
        (isPrefixOf_ne_second (by rfl)) (isPrefixOf_ne_second (by rfl))
        (isPrefixOf_ne_second (by rfl)) bn cam vl fn
    have hch : containsSub ("(Start:".data ++ (fmt ++ [')'])) "(Channel)".data
        = false := by
      rw [show "(Start:".data ++ (fmt ++ [')']) =
        '(' :: ("Start:".data ++ (fmt ++ [')'])) from rfl]
      exact containsSub_single_paren hb ⟨_, rfl⟩ (isPrefixOf_ne_second (by rfl))
    unfold genFilename
    rw [hbs, hch]
    simp only [Bool.false_eq_true, if_false]
    rw [dtSubst_start fmt hne hnp dtS et now]
  · intro fmt dtE bn cam vl fn st now hne hp1 hnp
    have hb : '(' ∉ ("End:".data ++ (fmt ++ [')'])) := by
      intro hmem
      rcases List.mem_append.mp hmem with h | h
      · revert h; decide
      · rcases List.mem_append.mp h with h | h
        · exact hp1 h
        · revert h; decide
    have hbs : basicSubst ("(End:".data ++ (fmt ++ [')'])) bn cam vl fn =
        "(End:".data ++ (fmt ++ [')']) := by
      rw [show "(End:".data ++ (fmt ++ [')']) =
        '(' :: ("End:".data ++ (fmt ++ [')'])) from rfl]
      exact basicSubst_id _ hb (isPrefixOf_ne_second (by rfl))
        (isPrefixOf_ne_second (by rfl)) (isPrefixOf_ne_second (by rfl))
        (isPrefixOf_ne_second (by rfl)) bn cam vl fn
    have hch : containsSub ("(End:".data ++ (fmt ++ [')'])) "(Channel)".data
        = false := by
      rw [show "(End:".data ++ (fmt ++ [')']) =
        '(' :: ("End:".data ++ (fmt ++ [')'])) from rfl]
      exact containsSub_single_paren hb ⟨_, rfl⟩ (isPrefixOf_ne_second (by rfl))
    unfold genFilename
    rw [hbs, hch]
    simp only [Bool.false_eq_true, if_false]
    rw [dtSubst_end fmt hne hnp st dtE now]

/-- Witness for C7 at the concrete format `"yyyyMMdd"`. -/
theorem C7_witness :
    genFilename ("(Start:".data ++ ("yyyyMMdd".data ++ [')'])) none none none 1
      (some dt0) none none dt0 = safetyList (renderStamp dt0 "yyyyMMdd".data) :=
  C7_datetime_tokens.1 "yyyyMMdd".data dt0 none none none 1 none dt0
    (by decide) (by decide) (by decide)
